import Mathlib

/-!
Shallow embedding of the davidia browser plot client.

Sources embedded:
* `PlotComponent` (plot state store, websocket flow controller) — the unnamed
  component file (`src/unnamed/part_000`);
* `SelectionComponent` (selection geometry engine) —
  `src/client/component/SelectionComponent.tsx`;
* message shape declarations — `src/client/component/main.d.ts`.

Modelling conventions:
* JavaScript numbers appearing as plot samples are modelled as integers; the
  claims under study only use their linear order.  `NaN` (which arises from
  `Math.min`/`Math.max` applied to `undefined`, itself produced by indexing
  past the end of an array) is modelled explicitly by `JSNum.nan`.
* A thrown JavaScript `TypeError` (reading a property of `undefined`) is
  modelled by `Except.error JSError.typeError`.
* React `setState` and direct field assignment are both modelled as explicit
  state passing on `PlotState`.
-/

/-- A JavaScript number as it flows through the domain computations: either a
finite number (restricted to integers, which is all the claims need) or NaN. -/
inductive JSNum where
  | int (v : Int)
  | nan
deriving DecidableEq

/-- A thrown JavaScript exception.  The only one the embedded code can throw is
a `TypeError` from reading a property of `undefined`. -/
inductive JSError where
  | typeError
deriving DecidableEq

/-- Binary `Math.min`: NaN-absorbing minimum. -/
def jsMin : JSNum → JSNum → JSNum
  | .int a, .int b => .int (min a b)
  | _, _ => .nan

/-- Binary `Math.max`: NaN-absorbing maximum. -/
def jsMax : JSNum → JSNum → JSNum
  | .int a, .int b => .int (max a b)
  | _, _ => .nan

/-- `Math.min(...xs, m)` — the spread call used in `calculateMultiXDomain`.
With no arguments beyond `m` this is `m` itself; a NaN argument makes the
result NaN. -/
def mathMinSpread (xs : List Int) (m : JSNum) : JSNum :=
  xs.foldl (fun acc a => jsMin acc (.int a)) m

/-- `Math.max(...xs, m)` — the spread call used in `calculateMultiYDomain`. -/
def mathMaxSpread (xs : List Int) (m : JSNum) : JSNum :=
  xs.foldl (fun acc a => jsMax acc (.int a)) m

/-- `xs[0]` on a JavaScript number array: the first element, or `undefined`
when the array is empty.  The `undefined` value only ever flows into
`Math.min`/`Math.max`, where it behaves as NaN, so it is modelled as `nan`. -/
def jsIndex0 (xs : List Int) : JSNum :=
  match xs with
  | [] => .nan
  | a :: _ => .int a

/-- One line series (`interface LineData` in `main.d.ts`): a key, optional
style attributes, the x and y sample buffers and the `line_on` flag. -/
structure LineData where
  key : String
  color : Option String := none
  x : List Int
  y : List Int
  line_on : Bool
  point_size : Option Int := none
deriving DecidableEq

/-- The mutable plot state of `PlotComponent`: the React state field
`multilineData` together with the instance fields `multilineXDomain` and
`multilineYDomain`. -/
structure PlotState where
  multilineData : List LineData
  multilineXDomain : JSNum × JSNum
  multilineYDomain : JSNum × JSNum
deriving DecidableEq

/-- The component's state at construction: `this.state = {multilineData: []}`,
`multilineXDomain: any = [0, 0]`, `multilineYDomain: any = [0, 0]`. -/
def initialPlotState : PlotState :=
  { multilineData := []
    multilineXDomain := (.int 0, .int 0)
    multilineYDomain := (.int 0, .int 0) }

/-- Parameter payload of an outbound `PlotMessage`: either a status record
`{status: ...}` or a new-line request record `{line_id: ...}`. -/
inductive PlotParams where
  | statusParams (status : String)
  | newLineParams (line_id : String)
deriving DecidableEq

/-- An outbound wire message `{plot_id, type, params}` (type 0 = status,
type 1 = add-line request). -/
structure PlotMessage where
  plot_id : String
  type : Nat
  params : PlotParams
deriving DecidableEq

/-- The ready acknowledgement `{plot_id, type: 0, params: {status: "ready"}}`
sent by the inbound-message handler. -/
def readyStatusMessage (plotId : String) : PlotMessage :=
  { plot_id := plotId, type := 0, params := .statusParams "ready" }

/-- The payload record the handler reads for a `"multiline data"` message
(the cast `decoded_message as MultiDataMessage`); the handler consumes its
`data` field. -/
structure MultiDataMessage where
  data : List LineData
deriving DecidableEq

/-- The payload record the handler reads for a `"new line data"` message
(the cast `decoded_message as LineDataMessage`); the handler consumes its
`data` field. -/
structure LineDataMessage where
  data : LineData
deriving DecidableEq

/-- A decoded inbound message, discriminated by its string `type` tag exactly
as the `switch (decoded_message["type"])` in `componentDidMount` does.  The
`other` constructor covers every message whose tag is none of the three
recognized kinds. -/
inductive InMsg where
  | multiline (message : MultiDataMessage)
  | newline (message : LineDataMessage)
  | clearPlots
  | other (tag : String)
deriving DecidableEq

/-- The string discriminant tag of a decoded inbound message. -/
def tagOf : InMsg → String
  | .multiline _ => "multiline data"
  | .newline _ => "new line data"
  | .clearPlots => "clear plots"
  | .other t => t

/-- Whether a decoded message hits one of the three recognized switch cases. -/
def isRecognized : InMsg → Bool
  | .other _ => false
  | _ => true

/-- `calculateMultiXDomain`: seeds min and max from `multilineData[0].x[0]`
and folds `Math.min(...multilineData[i].x, minimum)` /
`Math.max(...multilineData[i].x, maximum)` over every series.  On an empty
collection, `multilineData[0]` is `undefined` and reading `.x` throws a
`TypeError`. -/
def calculateMultiXDomain (multilineData : List LineData) :
    Except JSError (JSNum × JSNum) :=
  match multilineData with
  | [] => .error .typeError
  | first :: _ =>
    let start := jsIndex0 first.x
    .ok (multilineData.foldl
      (fun mm s => (mathMinSpread s.x mm.1, mathMaxSpread s.x mm.2))
      (start, start))

/-- `calculateMultiYDomain`: identical to the x version but over the `y`
sample buffers. -/
def calculateMultiYDomain (multilineData : List LineData) :
    Except JSError (JSNum × JSNum) :=
  match multilineData with
  | [] => .error .typeError
  | first :: _ =>
    let start := jsIndex0 first.y
    .ok (multilineData.foldl
      (fun mm s => (mathMinSpread s.y mm.1, mathMaxSpread s.y mm.2))
      (start, start))

/-- `plot_multiline_data`: installs `message.data` as the collection and
recomputes both domains from it.  Both domain computations throw on an empty
list; the throw happens before any field assignment, so an error leaves the
state untouched (handled by the caller). -/
def plot_multiline_data (message : MultiDataMessage) :
    Except JSError PlotState :=
  let multilineData := message.data
  match calculateMultiXDomain multilineData with
  | .error e => .error e
  | .ok xd =>
    match calculateMultiYDomain multilineData with
    | .error e => .error e
    | .ok yd =>
      .ok { multilineData := multilineData
            multilineXDomain := xd
            multilineYDomain := yd }

/-- `plot_new_line_data`: pushes `message.data` onto the existing collection
(`multilineData.push(newLineData)`) and recomputes both domains over the
entire updated collection. -/
def plot_new_line_data (s : PlotState) (message : LineDataMessage) :
    Except JSError PlotState :=
  let multilineData := s.multilineData ++ [message.data]
  match calculateMultiXDomain multilineData with
  | .error e => .error e
  | .ok xd =>
    match calculateMultiYDomain multilineData with
    | .error e => .error e
    | .ok yd =>
      .ok { multilineData := multilineData
            multilineXDomain := xd
            multilineYDomain := yd }

/-- `clear_all_line_data`: resets both domains to `[0, 1]` and empties the
collection. -/
def clear_all_line_data (_s : PlotState) : PlotState :=
  { multilineData := []
    multilineXDomain := (.int 0, .int 1)
    multilineYDomain := (.int 0, .int 1) }

/-- Net effect of one run of the `socket.onmessage` handler: the plot state
when the handler returns (or when an exception aborts it), the messages sent
on the socket, and the exception, if one was thrown. -/
structure HandlerResult where
  state : PlotState
  sent : List PlotMessage
  thrown : Option JSError
deriving DecidableEq

/-- The `socket.onmessage` handler installed by `componentDidMount`: switch on
the message tag, apply the corresponding store mutation, then send one ready
status message.  An exception thrown by the mutation aborts the handler before
the send; an unrecognized tag is only logged. -/
def componentOnMessage (plotId : String) (s : PlotState) (msg : InMsg) :
    HandlerResult :=
  match msg with
  | .multiline m =>
    match plot_multiline_data m with
    | .ok s2 => { state := s2, sent := [readyStatusMessage plotId], thrown := none }
    | .error e => { state := s, sent := [], thrown := some e }
  | .newline m =>
    match plot_new_line_data s m with
    | .ok s2 => { state := s2, sent := [readyStatusMessage plotId], thrown := none }
    | .error e => { state := s, sent := [], thrown := some e }
  | .clearPlots =>
    { state := clear_all_line_data s
      sent := [readyStatusMessage plotId]
      thrown := none }
  | .other _ => { state := s, sent := [], thrown := none }

/-- States of the plot state store reachable from the component's initial
state by runs of the inbound-message handler. -/
inductive Reachable : PlotState → Prop
  | init : Reachable initialPlotState
  | step (s : PlotState) (plotId : String) (msg : InMsg) :
      Reachable s → Reachable (componentOnMessage plotId s msg).state

/-! ## Transport channel: wait-for-open and the add-line request -/

/-- A websocket's `readyState`. -/
inductive SocketReadyState where
  | CONNECTING
  | OPEN
  | CLOSING
  | CLOSED
deriving DecidableEq

/-- Net effect of `waitForOpenSocket`'s promise executor: how many
continuations were registered on the socket's `open` event and whether the
promise resolved immediately instead. -/
structure WaitResult where
  openListenersRegistered : Nat
  resolvedImmediately : Bool
deriving DecidableEq

/-- `waitForOpenSocket`: if `socket.readyState !== socket.OPEN`, register one
listener on the `open` event that resolves the promise; otherwise resolve at
once. -/
def waitForOpenSocket (readyState : SocketReadyState) : WaitResult :=
  if readyState ≠ .OPEN then
    { openListenersRegistered := 1, resolvedImmediately := false }
  else
    { openListenersRegistered := 0, resolvedImmediately := true }

/-- Trace of one call of the async `sendNewLineRequest` body: the wait on the
socket, the messages sent once the wait completed, and how many further
suspension points the body ran through after the send (the body is straight
line code after its single `await`). -/
structure SendTrace where
  wait : WaitResult
  sentAfterOpen : List PlotMessage
  suspensionsAfterSend : Nat
deriving DecidableEq

/-- `String(n)` for the non-negative integer line counter: its decimal digit
string. -/
def jsNumberToString (n : Nat) : String :=
  Nat.repr n

/-- `sendNewLineRequest(nextLineID)`: await `waitForOpenSocket(this.socket)`,
then send `{plot_id, type: 1, params: {line_id: String(nextLineID)}}`.  There
is no code after the send, hence no further suspension. -/
def sendNewLineRequest (readyState : SocketReadyState) (plotId : String)
    (nextLineID : Nat) : SendTrace :=
  let message_params := PlotParams.newLineParams (jsNumberToString nextLineID)
  let message : PlotMessage := { plot_id := plotId, type := 1, params := message_params }
  { wait := waitForOpenSocket readyState
    sentAfterOpen := [message]
    suspensionsAfterSend := 0 }

/-- The value of the instance field `lineID = 3` at component creation. -/
def lineIDStart : Nat := 3

/-- `handleAddLine`: increment `this.lineID`, then call
`sendNewLineRequest(this.lineID)` with the incremented value.  Returns the new
counter value and the request trace. -/
def handleAddLine (readyState : SocketReadyState) (plotId : String)
    (lineID : Nat) : Nat × SendTrace :=
  let next := lineID + 1
  (next, sendNewLineRequest readyState plotId next)

/-- The value of `this.lineID` after `k` activations of the add-line button. -/
def lineIDAfter (readyState : SocketReadyState) (plotId : String) :
    Nat → Nat
  | 0 => lineIDStart
  | k + 1 => (handleAddLine readyState plotId (lineIDAfter readyState plotId k)).1

/-! ## Selection geometry engine -/

/-- The shape kinds of `SelectionType` (keys of the `counters` state object in
`SelectionComponent`). -/
inductive SelectionType where
  | line
  | rectangle
  | polyline
  | polygon
  | circle
  | ellipse
  | sector
  | unknown
deriving DecidableEq

/-- The per-kind counter record held in the `counters` React state of
`SelectionComponent`. -/
structure SelectionCounters where
  line : Nat
  rectangle : Nat
  polyline : Nat
  polygon : Nat
  circle : Nat
  ellipse : Nat
  sector : Nat
  unknown : Nat
deriving DecidableEq

/-- `counters[t]`: dynamic field read of the counter record. -/
def getCounter (c : SelectionCounters) : SelectionType → Nat
  | .line => c.line
  | .rectangle => c.rectangle
  | .polyline => c.polyline
  | .polygon => c.polygon
  | .circle => c.circle
  | .ellipse => c.ellipse
  | .sector => c.sector
  | .unknown => c.unknown

/-- `updateCounters(t)`: `newCounters[t]++` followed by `setCounters` — the
counter of kind `t` is incremented, every other kind is untouched. -/
def updateCounters (c : SelectionCounters) : SelectionType → SelectionCounters
  | .line => { c with line := c.line + 1 }
  | .rectangle => { c with rectangle := c.rectangle + 1 }
  | .polyline => { c with polyline := c.polyline + 1 }
  | .polygon => { c with polygon := c.polygon + 1 }
  | .circle => { c with circle := c.circle + 1 }
  | .ellipse => { c with ellipse := c.ellipse + 1 }
  | .sector => { c with sector := c.sector + 1 }
  | .unknown => { c with unknown := c.unknown + 1 }

/-- A point in screen or data space.  Coordinates are modelled as integers;
the claims only use their linear order and signs. -/
abbrev Pt : Type := Int × Int

/-- `Vector3.sub` on the two coordinates the component uses. -/
def vecSub (a b : Pt) : Pt :=
  (a.1 - b.1, a.2 - b.2)

/-- `isFlipped`: transform the data-space points `(0,0)` and `(1,1)` to screen
space with `dataToHtml(camera, ·)`, subtract, and flag each axis flipped
exactly when its screen-space delta is negative. -/
def isFlipped (dataToHtml : Pt → Pt) : Bool × Bool :=
  let o := dataToHtml (0, 0)
  let v := vecSub (dataToHtml (1, 1)) o
  (decide (v.1 < 0), decide (v.2 < 0))

/-- A committed selection region.

Modelled from the spec: `pointsToSelection` lives in `./selections`, which is
not under the sources; per the spec a SelectionRegion is a tagged geometric
primitive with a generated id (kind + running counter), style (colour, alpha)
and data-space coordinates. -/
structure SelectionRegion where
  kind : SelectionType
  idNumber : Nat
  colour : String
  alpha : ℚ
  dataPoints : List Pt
deriving DecidableEq

/-- Modelled from the spec: `pointsToSelection` (from `./selections`, not
under the sources) wraps the data-space gesture points into a
`SelectionRegion` of the given kind, carrying the running counter value it was
given as the id number; its counter side effect is modelled separately at the
commit site. -/
def pointsToSelection (kind : SelectionType) (dataPoints : List Pt)
    (colour : String) (alpha : ℚ) (counterValue : Nat) : SelectionRegion :=
  { kind := kind
    idNumber := counterValue
    colour := colour
    alpha := alpha
    dataPoints := dataPoints }

/-- Modelled from the spec: `Box.fromPoints(...html)` (from the external
viewport library) is the axis-aligned bounding box of the gesture's
screen-space points; its `size` is the width/height pair.  A gesture starts at
a pointer-down point, so the point list is never empty: the first point seeds
the extrema. -/
def boundingBoxSize (p : Pt) (ps : List Pt) : Int × Int :=
  (ps.foldl (fun m q => max m q.1) p.1 - ps.foldl (fun m q => min m q.1) p.1,
   ps.foldl (fun m q => max m q.2) p.2 - ps.foldl (fun m q => min m q.2) p.2)

/-- Modelled from the spec: `Box.hasMinSize(minSize)` — both dimensions of the
box are at least `minSize` ("the gesture's bounding box must have both
dimensions ≥ 20 screen units"). -/
def hasMinSize (size : Int × Int) (minSize : Int) : Bool :=
  decide (minSize ≤ size.1) && decide (minSize ≤ size.2)

/-- The `validate` prop passed to `SelectionTool`:
`({ html }) => Box.fromPoints(...html).hasMinSize(20)`. -/
def validateGesture (p : Pt) (ps : List Pt) : Bool :=
  hasMinSize (boundingBoxSize p ps) 20

/-- The selection engine's mutable surroundings: the per-kind counters and the
external region collection fed through the `addSelection` collaborator. -/
structure SelectionEngineState where
  counters : SelectionCounters
  regions : List SelectionRegion
deriving DecidableEq

/-- The default style of `SelectionComponent`:
`const def = { colour: 'blue', alpha: 0.3 }`. -/
def defColour : String := "blue"

/-- The default alpha `0.3`. -/
def defAlpha : ℚ := 3 / 10

/-- The `onValidSelection` prop: build the region from the data-space gesture
points via `pointsToSelection` with the current counter of the selected kind,
hand it to `addSelection`, and bump that kind's counter via `updateCounters`. -/
def onValidSelection (st : SelectionEngineState) (selectionType : SelectionType)
    (dataPoints : List Pt) : SelectionEngineState :=
  let s := pointsToSelection selectionType dataPoints defColour defAlpha
    (getCounter st.counters selectionType)
  { counters := updateCounters st.counters selectionType
    regions := st.regions ++ [s] }

/-- Modelled from the spec: the external `SelectionTool` applies the
`validate` predicate to the finished gesture on pointer-up and invokes
`onValidSelection` exactly once when it holds; an invalid gesture is discarded
with no state change.  `p :: ps` are the gesture's screen-space points,
`dataPoints` their data-space images. -/
def pointerUp (st : SelectionEngineState) (selectionType : SelectionType)
    (p : Pt) (ps : List Pt) (dataPoints : List Pt) : SelectionEngineState :=
  if validateGesture p ps then onValidSelection st selectionType dataPoints
  else st

/-! ## Wire shape of the multiline message -/

/-- Property bag of a decoded `"multiline data"` wire object, restricted to
the two candidate payload properties: `main.d.ts` declares the series list
under `ml_data` (interface `MultiLineDataMessage`), while the mounted handler
reads `message.data` (cast `MultiDataMessage`).  `none` models an absent
property (`undefined`). -/
structure MultilineWireObject where
  ml_data : Option (List LineData) := none
  data : Option (List LineData) := none
deriving DecidableEq

/-- `let multilineData = message.data;` — the payload property access
performed by `plot_multiline_data` on the decoded object. -/
def multilinePayloadRead (m : MultilineWireObject) : Option (List LineData) :=
  m.data

/-! ## Concrete sample data (the spec's test scenarios) -/

/-- Series A of the spec scenario: samples `(0,0), (1,1)`. -/
def lineA : LineData := { key := "A", x := [0, 1], y := [0, 1], line_on := true }

/-- Series B of the spec scenario: samples `(0,2), (2,0)`. -/
def lineB : LineData := { key := "B", x := [0, 2], y := [2, 0], line_on := true }

/-- Series C of the spec scenario: the single sample `(5,5)`. -/
def lineC : LineData := { key := "C", x := [5], y := [5], line_on := true }

/-- A series with empty sample buffers. -/
def lineEmpty : LineData := { key := "E", x := [], y := [], line_on := true }

/-- A selection-engine state with all counters zero and no regions. -/
def sampleSelectionState : SelectionEngineState :=
  { counters := { line := 0, rectangle := 0, polyline := 0, polygon := 0,
                  circle := 0, ellipse := 0, sector := 0, unknown := 0 }
    regions := [] }

/-- A `"multiline data"` wire object shaped as `main.d.ts` and the spec
prescribe: the series list sits in `ml_data` and no `data` property exists. -/
def specShapedMultilineObject : MultilineWireObject :=
  { ml_data := some [lineA] }

/-! ## Helper lemmas -/

theorem getCounter_updateCounters_self (c : SelectionCounters) (t : SelectionType) :
    getCounter (updateCounters c t) t = getCounter c t + 1 := by
  cases t <;> rfl

theorem getCounter_updateCounters_other (c : SelectionCounters)
    (t u : SelectionType) (h : u ≠ t) :
    getCounter (updateCounters c t) u = getCounter c u := by
  cases t <;> cases u <;> simp_all [getCounter, updateCounters]

theorem clear_all_line_data_iterate (n : Nat) (s : PlotState) :
    clear_all_line_data^[n + 1] s = clear_all_line_data s := by
  induction n generalizing s with
  | zero => rfl
  | succ n ih => exact ih (clear_all_line_data s)

theorem lineIDAfter_eq (readyState : SocketReadyState) (plotId : String)
    (k : Nat) : lineIDAfter readyState plotId k = 3 + k := by
  induction k with
  | zero => rfl
  | succ k ih => simp [lineIDAfter, handleAddLine, ih]; omega

theorem calculateMultiXDomain_ok {d : List LineData} (h : d ≠ []) :
    ∃ p, calculateMultiXDomain d = .ok p := by
  cases d with
  | nil => exact absurd rfl h
  | cons a l => exact ⟨_, rfl⟩

theorem calculateMultiYDomain_ok {d : List LineData} (h : d ≠ []) :
    ∃ p, calculateMultiYDomain d = .ok p := by
  cases d with
  | nil => exact absurd rfl h
  | cons a l => exact ⟨_, rfl⟩

theorem plot_multiline_data_ok {m : MultiDataMessage} (h : m.data ≠ []) :
    ∃ s2, plot_multiline_data m = .ok s2 ∧ s2.multilineData = m.data := by
  obtain ⟨xd, hx⟩ := calculateMultiXDomain_ok h
  obtain ⟨yd, hy⟩ := calculateMultiYDomain_ok h
  refine ⟨{ multilineData := m.data, multilineXDomain := xd, multilineYDomain := yd },
    ?_, rfl⟩
  simp [plot_multiline_data, hx, hy]

theorem plot_multiline_data_nil {m : MultiDataMessage} (h : m.data = []) :
    plot_multiline_data m = .error .typeError := by
  cases m with
  | mk d =>
    simp only at h
    subst h
    rfl

theorem plot_multiline_data_collection {m : MultiDataMessage} {s2 : PlotState}
    (h : plot_multiline_data m = .ok s2) : s2.multilineData = m.data := by
  by_cases hd : m.data = []
  · rw [plot_multiline_data_nil hd] at h
    exact absurd h (by simp)
  · obtain ⟨s3, hok, hcol⟩ := plot_multiline_data_ok hd
    rw [hok] at h
    simp only [Except.ok.injEq] at h
    rw [← h]
    exact hcol

theorem plot_new_line_data_ok (s : PlotState) (m : LineDataMessage) :
    ∃ xd yd,
      calculateMultiXDomain (s.multilineData ++ [m.data]) = .ok xd ∧
      calculateMultiYDomain (s.multilineData ++ [m.data]) = .ok yd ∧
      plot_new_line_data s m = .ok
        { multilineData := s.multilineData ++ [m.data]
          multilineXDomain := xd
          multilineYDomain := yd } := by
  have hne : s.multilineData ++ [m.data] ≠ [] := by simp
  obtain ⟨xd, hx⟩ := calculateMultiXDomain_ok hne
  obtain ⟨yd, hy⟩ := calculateMultiYDomain_ok hne
  exact ⟨xd, yd, hx, hy, by simp [plot_new_line_data, hx, hy]⟩

/-! ## Claim theorems -/

/-- C3: a gesture whose screen-space bounding box fails the 20×20 minimum is
never committed (the engine state is unchanged: no region is added, no counter
moves); a gesture whose bounding box has both dimensions at least 20 is
committed exactly once: exactly one `SelectionRegion` is appended to the
region collection and the currently selected kind's counter is incremented by
exactly 1 while every other kind's counter is unchanged. -/
theorem c3_gesture_commit (st : SelectionEngineState) (t : SelectionType)
    (p : Pt) (ps : List Pt) (dataPoints : List Pt) :
    (hasMinSize (boundingBoxSize p ps) 20 = false →
      pointerUp st t p ps dataPoints = st) ∧
    (hasMinSize (boundingBoxSize p ps) 20 = true →
      (pointerUp st t p ps dataPoints).regions =
        st.regions ++
          [pointsToSelection t dataPoints defColour defAlpha
            (getCounter st.counters t)] ∧
      getCounter (pointerUp st t p ps dataPoints).counters t =
        getCounter st.counters t + 1 ∧
      ∀ u : SelectionType, u ≠ t →
        getCounter (pointerUp st t p ps dataPoints).counters u =
          getCounter st.counters u) := by
  constructor
  · intro h
    simp [pointerUp, validateGesture, h]
  · intro h
    refine ⟨?_, ?_, ?_⟩
    · simp [pointerUp, validateGesture, h, onValidSelection]
    · simp [pointerUp, validateGesture, h, onValidSelection,
        getCounter_updateCounters_self]
    · intro u hu
      simp [pointerUp, validateGesture, h, onValidSelection,
        getCounter_updateCounters_other st.counters t u hu]

/-- Witness for C3: a 5×5 gesture is discarded with the engine state intact,
while a 30×40 gesture commits, appending one region and bumping the rectangle
counter from 0 to 1. -/
theorem c3_gesture_commit_witness :
    pointerUp sampleSelectionState .rectangle (0, 0) [(5, 5)] [(1, 1)] =
      sampleSelectionState ∧
    (pointerUp sampleSelectionState .rectangle (0, 0) [(30, 40)] [(2, 3)]).regions =
      sampleSelectionState.regions ++
        [pointsToSelection .rectangle [(2, 3)] defColour defAlpha
          (getCounter sampleSelectionState.counters .rectangle)] ∧
    getCounter
        (pointerUp sampleSelectionState .rectangle (0, 0) [(30, 40)] [(2, 3)]).counters
        .rectangle =
      getCounter sampleSelectionState.counters .rectangle + 1 :=
  ⟨(c3_gesture_commit sampleSelectionState .rectangle (0, 0) [(5, 5)] [(1, 1)]).1
      (by decide),
   ((c3_gesture_commit sampleSelectionState .rectangle (0, 0) [(30, 40)] [(2, 3)]).2
      (by decide)).1,
   ((c3_gesture_commit sampleSelectionState .rectangle (0, 0) [(30, 40)] [(2, 3)]).2
      (by decide)).2.1⟩

/-- C6: `clear_all_line_data` is idempotent — from any state it yields the
collection `[]` with both domains `[0, 1]`, a second application changes
nothing, and any positive number of consecutive applications equals one. -/
theorem c6_clear_idempotent (s : PlotState) :
    clear_all_line_data s =
      { multilineData := []
        multilineXDomain := (.int 0, .int 1)
        multilineYDomain := (.int 0, .int 1) } ∧
    clear_all_line_data (clear_all_line_data s) = clear_all_line_data s ∧
    ∀ n : Nat, clear_all_line_data^[n + 1] s = clear_all_line_data s :=
  ⟨rfl, rfl, fun n => clear_all_line_data_iterate n s⟩

/-- C7: the axis-inversion flags are obtained by transforming the data-space
points `(0,0)` and `(1,1)` to screen space; each axis is flagged flipped
exactly when its screen-space delta is negative, i.e. exactly when the sign of
the screen-space delta is `-1`, the opposite of the (positive) data-space
delta's sign. -/
theorem c7_isFlipped_sign (dataToHtml : Pt → Pt) :
    isFlipped dataToHtml =
      (decide ((vecSub (dataToHtml (1, 1)) (dataToHtml (0, 0))).1 < 0),
       decide ((vecSub (dataToHtml (1, 1)) (dataToHtml (0, 0))).2 < 0)) ∧
    ((isFlipped dataToHtml).1 = true ↔
      Int.sign ((dataToHtml (1, 1)).1 - (dataToHtml (0, 0)).1) = -1) ∧
    ((isFlipped dataToHtml).2 = true ↔
      Int.sign ((dataToHtml (1, 1)).2 - (dataToHtml (0, 0)).2) = -1) := by
  refine ⟨rfl, ?_, ?_⟩ <;>
    simp [isFlipped, vecSub, Int.sign_eq_neg_one_iff_neg]

/-- C9: `sendNewLineRequest` waits on the socket exactly once — resolving
immediately when the socket is already open and otherwise registering exactly
one continuation on the `open` event — then sends exactly the single message
`{plot_id, type: 1, params: {line_id}}` and reaches no further suspension
point. -/
theorem c9_sendNewLineRequest (readyState : SocketReadyState)
    (plotId : String) (nextLineID : Nat) :
    (sendNewLineRequest readyState plotId nextLineID).sentAfterOpen =
      [{ plot_id := plotId, type := 1,
         params := .newLineParams (jsNumberToString nextLineID) }] ∧
    (sendNewLineRequest readyState plotId nextLineID).wait.resolvedImmediately =
      decide (readyState = .OPEN) ∧
    (sendNewLineRequest readyState plotId nextLineID).wait.openListenersRegistered =
      (if readyState = .OPEN then 0 else 1) ∧
    (sendNewLineRequest readyState plotId nextLineID).suspensionsAfterSend = 0 := by
  cases readyState <;>
    simp [sendNewLineRequest, waitForOpenSocket]

/-- C10: the line counter starts at 3 and is incremented before each send, so
after `k` activations it holds `3 + k`, and the `(k+1)`-th activation sends
exactly one add-line request whose `line_id` is the decimal string of `4 + k`
— `"4"` for the first activation, and consecutive strictly increasing integers
afterwards. -/
theorem c10_lineID_requests (readyState : SocketReadyState) (plotId : String)
    (k : Nat) :
    lineIDAfter readyState plotId k = 3 + k ∧
    (handleAddLine readyState plotId (lineIDAfter readyState plotId k)).1 =
      4 + k ∧
    (handleAddLine readyState plotId (lineIDAfter readyState plotId k)).2.sentAfterOpen =
      [{ plot_id := plotId, type := 1,
         params := .newLineParams (Nat.repr (4 + k)) }] := by
  refine ⟨lineIDAfter_eq readyState plotId k, ?_, ?_⟩
  · simp [handleAddLine, lineIDAfter_eq]; omega
  · have h4 : 3 + k + 1 = 4 + k := by omega
    simp [handleAddLine, lineIDAfter_eq, sendNewLineRequest, jsNumberToString, h4]

/-- C1 counterexample: the claim fails on the code for the recognized tag
`"multiline data"` when the message carries an empty series list — the domain
recomputation throws a `TypeError` before any mutation or send, so the handler
mutates nothing and sends no ready-ack at all. -/
theorem c1_handler_ack_counterexample :
    isRecognized (.multiline { data := [] }) = true ∧
    componentOnMessage "plot_0" initialPlotState (.multiline { data := [] }) =
      { state := initialPlotState, sent := [], thrown := some .typeError } ∧
    (componentOnMessage "plot_0" initialPlotState (.multiline { data := [] })).sent ≠
      [readyStatusMessage "plot_0"] := by
  refine ⟨rfl, rfl, ?_⟩
  rw [show (componentOnMessage "plot_0" initialPlotState
      (.multiline { data := [] })).sent = [] from rfl]
  simp

/-- C1 (amended): for every recognized inbound message whose store mutation
completes — every `"clear plots"` and `"new line data"` message, and every
`"multiline data"` message whose series list is non-empty — the handler applies
the corresponding mutation and then sends exactly one
`{plot_id, type: 0, params: {status: "ready"}}` ack; a `"multiline data"`
message with an empty series list instead throws a `TypeError` during domain
recomputation, mutating nothing and sending no ack; for every message with any
other tag the handler performs no mutation and sends nothing. -/
theorem c1_handler_ack_amended (plotId : String) (s : PlotState) :
    (∀ m : MultiDataMessage, m.data ≠ [] →
      ∃ s2, plot_multiline_data m = .ok s2 ∧
        componentOnMessage plotId s (.multiline m) =
          { state := s2, sent := [readyStatusMessage plotId], thrown := none }) ∧
    (∀ m : MultiDataMessage, m.data = [] →
      componentOnMessage plotId s (.multiline m) =
        { state := s, sent := [], thrown := some .typeError }) ∧
    (∀ m : LineDataMessage,
      ∃ s2, plot_new_line_data s m = .ok s2 ∧
        componentOnMessage plotId s (.newline m) =
          { state := s2, sent := [readyStatusMessage plotId], thrown := none }) ∧
    (componentOnMessage plotId s .clearPlots =
      { state := clear_all_line_data s
        sent := [readyStatusMessage plotId]
        thrown := none }) ∧
    (∀ tag : String, componentOnMessage plotId s (.other tag) =
      { state := s, sent := [], thrown := none }) := by
  refine ⟨?_, ?_, ?_, rfl, fun tag => rfl⟩
  · intro m hm
    obtain ⟨s2, hok, _⟩ := plot_multiline_data_ok hm
    exact ⟨s2, hok, by simp [componentOnMessage, hok]⟩
  · intro m hm
    simp [componentOnMessage, plot_multiline_data_nil hm]
  · intro m
    obtain ⟨xd, yd, hx, hy, hok⟩ := plot_new_line_data_ok s m
    exact ⟨_, hok, by simp [componentOnMessage, hok]⟩

/-- Witness for C1: a one-series multiline message is applied and acked with
exactly one ready status message, and a message with the unrecognized tag
`"unknown tag"` leaves the state alone and sends nothing. -/
theorem c1_handler_ack_witness :
    (∃ s2, plot_multiline_data { data := [lineA] } = .ok s2 ∧
      componentOnMessage "plot_0" initialPlotState (.multiline { data := [lineA] }) =
        { state := s2, sent := [readyStatusMessage "plot_0"], thrown := none }) ∧
    componentOnMessage "plot_0" initialPlotState (.other "unknown tag") =
      { state := initialPlotState, sent := [], thrown := none } :=
  ⟨(c1_handler_ack_amended "plot_0" initialPlotState).1 { data := [lineA] } (by simp),
   (c1_handler_ack_amended "plot_0" initialPlotState).2.2.2.2 "unknown tag"⟩

/-- C4: `plot_new_line_data` (the `"new line data"` handler) on a collection
of `n` series yields the collection with the new series appended at the end:
`n + 1` series, the first `n` unchanged, the new one last — and both axis
domains are recomputed over the entire updated collection. -/
theorem c4_append_series (s : PlotState) (m : LineDataMessage) :
    ∃ xd yd,
      calculateMultiXDomain (s.multilineData ++ [m.data]) = .ok xd ∧
      calculateMultiYDomain (s.multilineData ++ [m.data]) = .ok yd ∧
      plot_new_line_data s m = .ok
        { multilineData := s.multilineData ++ [m.data]
          multilineXDomain := xd
          multilineYDomain := yd } ∧
      (s.multilineData ++ [m.data]).length = s.multilineData.length + 1 ∧
      (s.multilineData ++ [m.data]).take s.multilineData.length =
        s.multilineData ∧
      (s.multilineData ++ [m.data]).getLast? = some m.data := by
  obtain ⟨xd, yd, hx, hy, hok⟩ := plot_new_line_data_ok s m
  refine ⟨xd, yd, hx, hy, hok, by simp, ?_, ?_⟩
  · exact List.take_left s.multilineData [m.data]
  · exact List.getLast?_concat s.multilineData

/-- C5 counterexample: the initial state (before any message) has an empty
collection, yet its domains are the initializers `[0, 0]`, not the fixed
default `[0, 1]` the claim asserts. -/
theorem c5_empty_domains_counterexample :
    Reachable initialPlotState ∧
    initialPlotState.multilineData = [] ∧
    initialPlotState.multilineXDomain ≠ (.int 0, .int 1) ∧
    initialPlotState.multilineYDomain ≠ (.int 0, .int 1) :=
  ⟨Reachable.init, rfl, by decide, by decide⟩

/-- C5 (amended): in every reachable state with an empty series collection the
two axis domains are equal and are either the initializer pair `[0, 0]` (as in
the initial state, contradicting the claimed `[0, 1]` there) or the fixed
default `[0, 1]` installed by `clear_all_line_data`. -/
theorem c5_empty_domains_amended (s : PlotState) (hr : Reachable s)
    (he : s.multilineData = []) :
    (s.multilineXDomain = (.int 0, .int 0) ∧
      s.multilineYDomain = (.int 0, .int 0)) ∨
    (s.multilineXDomain = (.int 0, .int 1) ∧
      s.multilineYDomain = (.int 0, .int 1)) := by
  revert he
  induction hr with
  | init => intro he; exact Or.inl ⟨rfl, rfl⟩
  | step s plotId msg hr ih =>
    intro he
    cases msg with
    | multiline m =>
      cases hok : plot_multiline_data m with
      | ok s2 =>
        have hcol : s2.multilineData = m.data := plot_multiline_data_collection hok
        simp only [componentOnMessage, hok] at he ⊢
        rw [hcol] at he
        rw [plot_multiline_data_nil he] at hok
        exact absurd hok (by simp)
      | error e =>
        simp only [componentOnMessage, hok] at he ⊢
        exact ih he
    | newline m =>
      obtain ⟨xd, yd, hx, hy, hok⟩ := plot_new_line_data_ok s m
      simp only [componentOnMessage, hok] at he
      simp at he
    | clearPlots => exact Or.inr ⟨rfl, rfl⟩
    | other t => exact ih he

/-- Witness for C5 (amended): the initial state is reachable, empty, and falls
into the `[0, 0]` alternative. -/
theorem c5_empty_domains_witness :
    initialPlotState.multilineData = [] ∧
    ((initialPlotState.multilineXDomain = (.int 0, .int 0) ∧
       initialPlotState.multilineYDomain = (.int 0, .int 0)) ∨
     (initialPlotState.multilineXDomain = (.int 0, .int 1) ∧
       initialPlotState.multilineYDomain = (.int 0, .int 1))) :=
  ⟨rfl, c5_empty_domains_amended initialPlotState Reachable.init rfl⟩

/-- C8 counterexample: on a wire object shaped exactly as `main.d.ts` and the
spec prescribe — series list present under `ml_data`, no `data` property —
the handler's payload read (`message.data`) yields `undefined` rather than the
carried series list, so the handlers do not read the payload from `ml_data`. -/
theorem c8_payload_field_counterexample :
    specShapedMultilineObject.ml_data = some [lineA] ∧
    multilinePayloadRead specShapedMultilineObject ≠
      specShapedMultilineObject.ml_data ∧
    multilinePayloadRead specShapedMultilineObject = none := by
  refine ⟨rfl, ?_, rfl⟩
  intro h
  simp [multilinePayloadRead, specShapedMultilineObject] at h

/-- C8 (amended): both data handlers read their series payload from the
`data` field of the decoded message — `plot_multiline_data` installs exactly
`message.data` as the collection and `plot_new_line_data` appends exactly
`message.data` — not from the `ml_data`/`al_data` fields declared in
`main.d.ts`. -/
theorem c8_payload_field_amended (plotId : String) (s : PlotState) :
    (∀ m : MultilineWireObject, multilinePayloadRead m = m.data) ∧
    (∀ m : MultiDataMessage, m.data ≠ [] →
      ∃ s2, plot_multiline_data m = .ok s2 ∧ s2.multilineData = m.data ∧
        (componentOnMessage plotId s (.multiline m)).state.multilineData =
          m.data) ∧
    (∀ m : LineDataMessage,
      (componentOnMessage plotId s (.newline m)).state.multilineData =
        s.multilineData ++ [m.data]) := by
  refine ⟨fun m => rfl, ?_, ?_⟩
  · intro m hm
    obtain ⟨s2, hok, hcol⟩ := plot_multiline_data_ok hm
    exact ⟨s2, hok, hcol, by simp [componentOnMessage, hok, hcol]⟩
  · intro m
    obtain ⟨xd, yd, hx, hy, hok⟩ := plot_new_line_data_ok s m
    simp [componentOnMessage, hok]

/-- Witness for C8 (amended): applying a multiline message carrying `[lineA]`
in its `data` field installs exactly `[lineA]` as the collection. -/
theorem c8_payload_field_witness :
    ¬(([lineA] : List LineData) = []) ∧
    ∃ s2, plot_multiline_data { data := [lineA] } = .ok s2 ∧
      s2.multilineData = [lineA] ∧
      (componentOnMessage "plot_0" initialPlotState
        (.multiline { data := [lineA] })).state.multilineData = [lineA] :=
  ⟨by simp,
   (c8_payload_field_amended "plot_0" initialPlotState).2.1
     { data := [lineA] } (by simp)⟩

theorem mathMinSpread_int (xs : List Int) (v : Int) :
    mathMinSpread xs (.int v) = .int (xs.foldl min v) := by
  induction xs generalizing v with
  | nil => rfl
  | cons a l ih => exact ih (min v a)

theorem mathMaxSpread_int (xs : List Int) (v : Int) :
    mathMaxSpread xs (.int v) = .int (xs.foldl max v) := by
  induction xs generalizing v with
  | nil => rfl
  | cons a l ih => exact ih (max v a)

theorem foldl_pair_split (d : List LineData) (f g : LineData → JSNum → JSNum)
    (x y : JSNum) :
    d.foldl (fun mm s => (f s mm.1, g s mm.2)) (x, y) =
      (d.foldl (fun m s => f s m) x, d.foldl (fun m s => g s m) y) := by
  induction d generalizing x y with
  | nil => rfl
  | cons s ds ih => exact ih (f s x) (g s y)

theorem fold_min_join (p : LineData → List Int) (d : List LineData) (v : Int) :
    d.foldl (fun m s => mathMinSpread (p s) m) (.int v) =
      .int ((d.map p).flatten.foldl min v) := by
  induction d generalizing v with
  | nil => rfl
  | cons s ds ih =>
    have h1 : (s :: ds).foldl (fun m s2 => mathMinSpread (p s2) m) (.int v) =
        ds.foldl (fun m s2 => mathMinSpread (p s2) m) (.int ((p s).foldl min v)) := by
      rw [List.foldl_cons, mathMinSpread_int]
    rw [h1, ih ((p s).foldl min v)]
    congr 1
    simp [List.foldl_append]

theorem fold_max_join (p : LineData → List Int) (d : List LineData) (v : Int) :
    d.foldl (fun m s => mathMaxSpread (p s) m) (.int v) =
      .int ((d.map p).flatten.foldl max v) := by
  induction d generalizing v with
  | nil => rfl
  | cons s ds ih =>
    have h1 : (s :: ds).foldl (fun m s2 => mathMaxSpread (p s2) m) (.int v) =
        ds.foldl (fun m s2 => mathMaxSpread (p s2) m) (.int ((p s).foldl max v)) := by
      rw [List.foldl_cons, mathMaxSpread_int]
    rw [h1, ih ((p s).foldl max v)]
    congr 1
    simp [List.foldl_append]

theorem foldl_min_le_start (l : List Int) (v : Int) : l.foldl min v ≤ v := by
  induction l generalizing v with
  | nil => exact le_refl v
  | cons a l ih => exact le_trans (ih (min v a)) (min_le_left v a)

theorem foldl_min_le_mem (l : List Int) (v : Int) :
    ∀ a ∈ l, l.foldl min v ≤ a := by
  induction l generalizing v with
  | nil => intro a ha; exact absurd ha (List.not_mem_nil a)
  | cons b l ih =>
    intro a ha
    rcases List.mem_cons.mp ha with h | h
    · subst h
      exact le_trans (foldl_min_le_start l (min v a)) (min_le_right v a)
    · exact ih (min v b) a h

theorem foldl_min_mem_or (l : List Int) (v : Int) :
    l.foldl min v = v ∨ l.foldl min v ∈ l := by
  induction l generalizing v with
  | nil => exact Or.inl rfl
  | cons a l ih =>
    rcases ih (min v a) with h | h
    · rcases min_choice v a with h2 | h2
      · exact Or.inl (by rw [List.foldl_cons, h, h2])
      · exact Or.inr (by rw [List.foldl_cons, h, h2]; exact List.mem_cons_self a l)
    · exact Or.inr (List.mem_cons_of_mem a h)

theorem foldl_max_ge_start (l : List Int) (v : Int) : v ≤ l.foldl max v := by
  induction l generalizing v with
  | nil => exact le_refl v
  | cons a l ih => exact le_trans (le_max_left v a) (ih (max v a))

theorem foldl_max_ge_mem (l : List Int) (v : Int) :
    ∀ a ∈ l, a ≤ l.foldl max v := by
  induction l generalizing v with
  | nil => intro a ha; exact absurd ha (List.not_mem_nil a)
  | cons b l ih =>
    intro a ha
    rcases List.mem_cons.mp ha with h | h
    · subst h
      exact le_trans (le_max_right v a) (foldl_max_ge_start l (max v a))
    · exact ih (max v b) a h

theorem foldl_max_mem_or (l : List Int) (v : Int) :
    l.foldl max v = v ∨ l.foldl max v ∈ l := by
  induction l generalizing v with
  | nil => exact Or.inl rfl
  | cons a l ih =>
    rcases ih (max v a) with h | h
    · rcases max_choice v a with h2 | h2
      · exact Or.inl (by rw [List.foldl_cons, h, h2])
      · exact Or.inr (by rw [List.foldl_cons, h, h2]; exact List.mem_cons_self a l)
    · exact Or.inr (List.mem_cons_of_mem a h)

theorem mem_flatten_map (p : LineData → List Int) (d : List LineData) (v : Int) :
    v ∈ (d.map p).flatten ↔ ∃ s, s ∈ d ∧ v ∈ p s := by
  simp [List.mem_flatten]

theorem fold_minmax_spec (p : LineData → List Int) (first : LineData)
    (rest : List LineData) (a : Int) (tl : List Int) (hp : p first = a :: tl) :
    ∃ mn mx : Int,
      (first :: rest).foldl
          (fun mm s => (mathMinSpread (p s) mm.1, mathMaxSpread (p s) mm.2))
          (jsIndex0 (p first), jsIndex0 (p first)) = (.int mn, .int mx) ∧
      (∃ s, s ∈ first :: rest ∧ mn ∈ p s) ∧
      (∃ s, s ∈ first :: rest ∧ mx ∈ p s) ∧
      (∀ s, s ∈ first :: rest → ∀ v ∈ p s, mn ≤ v ∧ v ≤ mx) := by
  have hseed : jsIndex0 (p first) = .int a := by rw [hp]; rfl
  have haJ : a ∈ (((first :: rest).map p).flatten) :=
    (mem_flatten_map p (first :: rest) a).mpr
      ⟨first, List.mem_cons_self first rest, by rw [hp]; exact List.mem_cons_self a tl⟩
  refine ⟨((first :: rest).map p).flatten.foldl min a,
    ((first :: rest).map p).flatten.foldl max a, ?_, ?_, ?_, ?_⟩
  · rw [hseed, foldl_pair_split, fold_min_join, fold_max_join]
  · refine (mem_flatten_map p (first :: rest) _).mp ?_
    rcases foldl_min_mem_or (((first :: rest).map p).flatten) a with h | h
    · rw [h]; exact haJ
    · exact h
  · refine (mem_flatten_map p (first :: rest) _).mp ?_
    rcases foldl_max_mem_or (((first :: rest).map p).flatten) a with h | h
    · rw [h]; exact haJ
    · exact h
  · intro s hs v hv
    have hvJ : v ∈ (((first :: rest).map p).flatten) :=
      (mem_flatten_map p (first :: rest) v).mpr ⟨s, hs, hv⟩
    exact ⟨foldl_min_le_mem _ a v hvJ, foldl_max_ge_mem _ a v hvJ⟩

theorem mathMinSpread_nan (xs : List Int) : mathMinSpread xs .nan = .nan := by
  induction xs with
  | nil => rfl
  | cons a l ih => exact ih

theorem mathMaxSpread_nan (xs : List Int) : mathMaxSpread xs .nan = .nan := by
  induction xs with
  | nil => rfl
  | cons a l ih => exact ih

theorem fold_pair_nan (p : LineData → List Int) (d : List LineData) :
    d.foldl (fun mm s => (mathMinSpread (p s) mm.1, mathMaxSpread (p s) mm.2))
      (.nan, .nan) = (.nan, .nan) := by
  induction d with
  | nil => rfl
  | cons s ds ih =>
    rw [List.foldl_cons,
      show (mathMinSpread (p s) ((JSNum.nan, JSNum.nan) : JSNum × JSNum).1,
          mathMaxSpread (p s) ((JSNum.nan, JSNum.nan) : JSNum × JSNum).2) =
        ((JSNum.nan, JSNum.nan) : JSNum × JSNum) from by
        rw [show ((JSNum.nan, JSNum.nan) : JSNum × JSNum).1 = JSNum.nan from rfl,
          show ((JSNum.nan, JSNum.nan) : JSNum × JSNum).2 = JSNum.nan from rfl,
          mathMinSpread_nan, mathMaxSpread_nan]]
    exact ih

/-- C2 counterexample: on the non-empty series list whose first series has an
empty x buffer, the seed `multilineData[0].x[0]` is `undefined`, so the
computed x domain is `[NaN, NaN]` — no numeric min/max attained by any sample
is returned, refuting the claim for this non-empty collection. -/
theorem c2_domain_minmax_counterexample :
    ([lineEmpty, lineC] : List LineData) ≠ [] ∧
    calculateMultiXDomain [lineEmpty, lineC] = .ok (.nan, .nan) ∧
    ¬∃ mn mx : Int,
      calculateMultiXDomain [lineEmpty, lineC] = .ok (.int mn, .int mx) := by
  refine ⟨by simp, rfl, ?_⟩
  rintro ⟨mn, mx, h⟩
  rw [show calculateMultiXDomain [lineEmpty, lineC] = .ok (.nan, .nan) from rfl] at h
  simp at h

/-- C2 (amended): for every non-empty list of line series, per axis
independently: if the first series has at least one sample on that axis, the
domain computation for that axis returns `.ok [min, max]` where min and max
are integer values attained by some sample of some series on that axis and
every sample of every series on that axis lies within `[min, max]` — with no
uniform-length hypothesis, so series may differ in length; if instead the
first series' sample buffer on that axis is empty, that axis's computed
domain is `[NaN, NaN]`. -/
theorem c2_domain_minmax_amended (first : LineData) (rest : List LineData) :
    (first.x ≠ [] →
      ∃ xmin xmax : Int,
        calculateMultiXDomain (first :: rest) = .ok (.int xmin, .int xmax) ∧
        (∃ s, s ∈ first :: rest ∧ xmin ∈ s.x) ∧
        (∃ s, s ∈ first :: rest ∧ xmax ∈ s.x) ∧
        (∀ s, s ∈ first :: rest → ∀ v ∈ s.x, xmin ≤ v ∧ v ≤ xmax)) ∧
    (first.y ≠ [] →
      ∃ ymin ymax : Int,
        calculateMultiYDomain (first :: rest) = .ok (.int ymin, .int ymax) ∧
        (∃ s, s ∈ first :: rest ∧ ymin ∈ s.y) ∧
        (∃ s, s ∈ first :: rest ∧ ymax ∈ s.y) ∧
        (∀ s, s ∈ first :: rest → ∀ v ∈ s.y, ymin ≤ v ∧ v ≤ ymax)) ∧
    (first.x = [] →
      calculateMultiXDomain (first :: rest) = .ok (.nan, .nan)) ∧
    (first.y = [] →
      calculateMultiYDomain (first :: rest) = .ok (.nan, .nan)) := by
  refine ⟨?_, ?_, ?_, ?_⟩
  · intro hx
    obtain ⟨a, tla, hpa⟩ := List.exists_cons_of_ne_nil hx
    obtain ⟨mnx, mxx, hfoldx, hax1, hax2, hbx⟩ :=
      fold_minmax_spec LineData.x first rest a tla hpa
    refine ⟨mnx, mxx, ?_, hax1, hax2, hbx⟩
    simp only [calculateMultiXDomain]
    rw [hfoldx]
  · intro hy
    obtain ⟨b, tlb, hpb⟩ := List.exists_cons_of_ne_nil hy
    obtain ⟨mny, mxy, hfoldy, hay1, hay2, hby⟩ :=
      fold_minmax_spec LineData.y first rest b tlb hpb
    refine ⟨mny, mxy, ?_, hay1, hay2, hby⟩
    simp only [calculateMultiYDomain]
    rw [hfoldy]
  · intro hx
    simp only [calculateMultiXDomain]
    rw [hx, show jsIndex0 ([] : List Int) = JSNum.nan from rfl,
      fold_pair_nan LineData.x (first :: rest)]
  · intro hy
    simp only [calculateMultiYDomain]
    rw [hy, show jsIndex0 ([] : List Int) = JSNum.nan from rfl,
      fold_pair_nan LineData.y (first :: rest)]

/-- Witness for C2 (amended): the spec scenario `A = [(0,0),(1,1)]`,
`B = [(0,2),(2,0)]` exercises both non-empty-axis clauses, and the list
`[lineEmpty, lineC]` (first series with an empty x buffer) exercises the
`[NaN, NaN]` clause. -/
theorem c2_domain_minmax_witness :
    (¬(lineA.x = []) ∧
      ∃ xmin xmax : Int,
        calculateMultiXDomain [lineA, lineB] = .ok (.int xmin, .int xmax) ∧
        (∃ s, s ∈ [lineA, lineB] ∧ xmin ∈ s.x) ∧
        (∃ s, s ∈ [lineA, lineB] ∧ xmax ∈ s.x) ∧
        (∀ s, s ∈ [lineA, lineB] → ∀ v ∈ s.x, xmin ≤ v ∧ v ≤ xmax)) ∧
    (¬(lineA.y = []) ∧
      ∃ ymin ymax : Int,
        calculateMultiYDomain [lineA, lineB] = .ok (.int ymin, .int ymax) ∧
        (∃ s, s ∈ [lineA, lineB] ∧ ymin ∈ s.y) ∧
        (∃ s, s ∈ [lineA, lineB] ∧ ymax ∈ s.y) ∧
        (∀ s, s ∈ [lineA, lineB] → ∀ v ∈ s.y, ymin ≤ v ∧ v ≤ ymax)) ∧
    (lineEmpty.x = [] ∧
      calculateMultiXDomain [lineEmpty, lineC] = .ok (.nan, .nan)) :=
  ⟨⟨by decide, (c2_domain_minmax_amended lineA [lineB]).1 (by decide)⟩,
   ⟨by decide, (c2_domain_minmax_amended lineA [lineB]).2.1 (by decide)⟩,
   ⟨by decide, (c2_domain_minmax_amended lineEmpty [lineC]).2.2.1 (by decide)⟩⟩
